import Mathlib

/-!
Shallow embedding of the session and streaming-protocol layer of
`python-samplerate-ledfx` (file `src/samplerate_nb.cpp`), together with
theorems settling the specification claims about it.

The numerical resampling engine (libsamplerate) is an external collaborator:
its responses (status codes, generated frame counts, pull behaviour) are
abstracted as explicit parameters, exactly as the spec treats it as an opaque
Conversion Engine.  Every function below is translated from the C++ source;
exceptions become `Except` values, with one constructor per C++ exception
type used by the bindings.
-/

namespace Samplerate

/-- The C++ exception types thrown by the bindings.
`resamplingException` is `samplerate::ResamplingException` (spec:
`ConversionFailed`), `runtimeError` is `std::runtime_error` (spec:
`FatalEngineContract`), `domainError` is `std::domain_error` (spec:
`InvalidShape` / `CallbackError`). -/
inductive CppError where
  | resamplingException : String → CppError
  | runtimeError : String → CppError
  | domainError : String → CppError
deriving DecidableEq, Repr

/-- `error_handler` from `samplerate_nb.cpp` lines 99-107.  The engine's
code-to-text mapping `src_strerror` is external, so it is passed in as the
parameter `strerror`; the translator calls it only on the branch where the
C++ constructs `ResamplingException(errnum)` (whose message is
`src_strerror(err_num)`). -/
def error_handler (strerror : Int → String) (errnum : Int) : Except CppError Unit :=
  if errnum > 0 ∧ errnum < 24 then
    .error (.resamplingException (strerror errnum))
  else if errnum ≠ 0 then
    .error (.runtimeError "libsamplerate raised an unknown error code")
  else
    .ok ()

/-- `END_OF_INPUT_EXTRA_OUTPUT_FRAMES` from `samplerate_nb.cpp` line 46. -/
def END_OF_INPUT_EXTRA_OUTPUT_FRAMES : ℕ := 10000

/-- The planned output capacity `new_size` computed identically in `resample`
(lines 136-138) and `Resampler::process` (lines 281-283):
`ceil(num_frames * sr_ratio) + END_OF_INPUT_EXTRA_OUTPUT_FRAMES`.
The double arithmetic is embedded as exact rational arithmetic. -/
def new_size (num_frames : ℕ) (sr_ratio : ℚ) : ℕ :=
  (⌈(num_frames : ℚ) * sr_ratio⌉).toNat + END_OF_INPUT_EXTRA_OUTPUT_FRAMES

/-- The shape of an input ndarray as seen by the bindings: its rank and its
first two extents.  `shape1` is only meaningful when `ndim = 2`. -/
structure NdIn where
  ndim : ℕ
  shape0 : ℕ
  shape1 : ℕ
deriving DecidableEq, Repr

/-- The channel count the bindings derive from an input array:
`int channels = 1; if (ndim == 2) channels = input.shape(1);`. -/
def NdIn.channels (input : NdIn) : ℕ :=
  if input.ndim = 2 then input.shape1 else 1

/-- The engine's response to one push-mode call (`src_simple` or
`src_process`): the status code it returns and the value it leaves in
`output_frames_gen`. -/
structure EngineProc where
  err_code : Int
  output_frames_gen : ℕ
deriving DecidableEq, Repr

/-- The shape of an output ndarray returned by the bindings.  `shape1` is
only meaningful when `ndim = 2`. -/
structure NdOut where
  ndim : ℕ
  shape0 : ℕ
  shape1 : ℕ
deriving DecidableEq, Repr

/-- `resample` from `samplerate_nb.cpp` lines 109-217 (the one-shot bulk
conversion), with the engine call `src_simple` abstracted as `engine`.
Validation, capacity planning, error translation and the overflow check are
the source's, in the source's order; the `verbose` printing is omitted as it
does not affect the returned value. -/
def resample (strerror : Int → String) (input : NdIn) (sr_ratio : ℚ)
    (engine : EngineProc) : Except CppError NdOut :=
  if input.ndim > 2 then
    .error (.domainError "Input array should have at most 2 dimensions")
  else if NdIn.channels input = 0 then
    .error (.domainError "Invalid number of channels (0) in input data.")
  else
    match error_handler strerror engine.err_code with
    | .error e => .error e
    | .ok _ =>
      if engine.output_frames_gen > new_size input.shape0 sr_ratio then
        .error (.runtimeError "Generated more output samples than expected!")
      else if input.ndim = 2 then
        .ok ⟨2, engine.output_frames_gen, NdIn.channels input⟩
      else
        .ok ⟨1, engine.output_frames_gen, 0⟩

/-- `Resampler::process` from `samplerate_nb.cpp` lines 256-351, with the
engine call `src_process` abstracted as `engine` and the session's fixed
`_channels` passed as `sess_channels`.  The second component counts engine
process invocations (0 when validation rejects the request before the
engine is reached, 1 otherwise).  `end_of_input` is forwarded to the engine
and does not influence the wrapper logic. -/
def Resampler.process (strerror : Int → String) (sess_channels : ℕ)
    (input : NdIn) (sr_ratio : ℚ) (end_of_input : Bool) (engine : EngineProc) :
    Except CppError NdOut × ℕ :=
  if input.ndim > 2 then
    (.error (.domainError "Input array should have at most 2 dimensions"), 0)
  else if NdIn.channels input ≠ sess_channels ∨ NdIn.channels input = 0 then
    (.error (.domainError "Invalid number of channels in input data."), 0)
  else
    match error_handler strerror engine.err_code with
    | .error e => (.error e, 1)
    | .ok _ =>
      if engine.output_frames_gen > new_size input.shape0 sr_ratio then
        (.error (.runtimeError "Generated more output samples than expected!"), 1)
      else if input.ndim = 2 then
        (.ok ⟨2, engine.output_frames_gen, NdIn.channels input⟩, 1)
      else
        (.ok ⟨1, engine.output_frames_gen, 0⟩, 1)

/-- One array handed back by the caller-supplied producer function: its rank
and its first two extents (`shape1` only meaningful when `ndim = 2`).  The
Python `None` end-of-stream sentinel is `Option.none` in the producer
stream. -/
structure Chunk where
  ndim : ℕ
  shape0 : ℕ
  shape1 : ℕ
deriving DecidableEq, Repr

/-- The observable state of a `CallbackResampler` (`samplerate_nb.cpp`
lines 368-551): whether the engine handle `_state` exists, the sticky
`_buffer_ndim`, the deferred-error slot `_callback_error_msg`, the recorded
`_ratio`, the fixed `_channels`, and the producer callback modelled as the
list of values its successive invocations return (an exhausted list keeps
returning the end-of-stream sentinel, like a Python producer that keeps
returning `None`). -/
structure CallbackState where
  hasState : Bool
  buffer_ndim : ℕ
  callback_error_msg : String
  ratio : ℚ
  channels : ℕ
  producer : List (Option Chunk)
deriving DecidableEq, Repr

namespace CallbackResampler

/-- `CallbackResampler::_create` (lines 382-387): recreates the engine
handle.  Handle creation by the external engine is assumed to succeed; a
failure would raise before any behaviour observed by the claims. -/
def create (s : CallbackState) : CallbackState :=
  { s with hasState := true }

/-- `CallbackResampler::_destroy` (lines 389-394): releases the engine
handle when present.  The second component counts `src_delete` calls made
on a live handle. -/
def destroy (s : CallbackState) : CallbackState × ℕ :=
  if s.hasState then ({ s with hasState := false }, 1) else (s, 0)

/-- `CallbackResampler::__exit__` (lines 546-550): unconditionally calls
`_destroy`. -/
def exit (s : CallbackState) : CallbackState × ℕ :=
  destroy s

/-- `CallbackResampler::callback` (lines 446-462): invokes the producer.
`None` becomes an empty (rank-0) array; otherwise `_buffer_ndim` is set
from the input's rank if it is still 0 and the input has rank > 0. -/
def callback (s : CallbackState) : CallbackState × Option Chunk :=
  match s.producer with
  | [] => (s, none)
  | none :: rest => ({ s with producer := rest }, none)
  | some input :: rest =>
    let s1 : CallbackState := { s with producer := rest }
    let s2 : CallbackState :=
      if input.ndim > 0 ∧ s1.buffer_ndim = 0 then
        { s1 with buffer_ndim := input.ndim }
      else s1
    (s2, some input)

end CallbackResampler

/-- The channel count the bridge derives from a producer chunk
(`size_t num_channels = 1; if (ndim == 2) num_channels = input.shape(1);`,
lines 561-576). -/
def Chunk.num_channels (c : Chunk) : ℕ :=
  if c.ndim = 2 then c.shape1 else 1

/-- `the_callback_func` (lines 555-596): the bridge the engine pulls input
through.  Returns the updated session state and the frame count reported to
the engine.  A rank-0 input (the sentinel) reports 0 frames; rank > 2 or a
channel-count mismatch records a deferred error and reports 0 frames. -/
def the_callback_func (s : CallbackState) : CallbackState × ℕ :=
  let cb_channels := s.channels
  match CallbackResampler.callback s with
  | (s1, none) => (s1, 0)
  | (s1, some input) =>
    if input.ndim = 0 then (s1, 0)
    else if input.ndim > 2 then
      ({ s1 with callback_error_msg := "Input array should have at most 2 dimensions" }, 0)
    else
      let num_channels := Chunk.num_channels input
      if num_channels ≠ cb_channels ∨ num_channels = 0 then
        ({ s1 with callback_error_msg := "Invalid number of channels in input data." }, 0)
      else (s1, input.shape0)

/-- The state of the session after the engine has pulled from the bridge
`n` times during one `src_callback_read` call. -/
def bridgePulls (s : CallbackState) : ℕ → CallbackState
  | 0 => s
  | n + 1 => bridgePulls (the_callback_func s).1 n

/-- The engine's behaviour during one `src_callback_read` call: how many
times it pulls from the bridge, the frame count it returns, and the status
`src_error` reports afterwards. -/
structure EngineRead where
  pulls : ℕ
  gen : ℕ
  err : Int
deriving DecidableEq, Repr

/-- Modelled from the spec: the Conversion Engine (libsamplerate, external
to this repository) reports a clean end-of-stream from `src_callback_read`
as zero generated frames with status 0 when its data source supplies no
further frames (spec section 4.6 step 6). -/
def EngineRead.cleanEOS (e : EngineRead) : Prop :=
  e.gen = 0 ∧ e.err = 0

/-- The shape of the ndarray returned by `CallbackResampler::read`:
rank and first two extents (`shape1` only meaningful when `ndim = 2`). -/
structure ReadOut where
  ndim : ℕ
  shape0 : ℕ
  shape1 : ℕ
deriving DecidableEq, Repr

namespace CallbackResampler

/-- The state `CallbackResampler::read` establishes before the engine call:
lazy handle recreation (`if (_state == nullptr) _create();`, line 474)
followed by `clear_callback_error()` (line 477). -/
def read_pre (s : CallbackState) : CallbackState :=
  let s1 := if s.hasState then s else create s
  { s1 with callback_error_msg := "" }

/-- `CallbackResampler::read` (lines 464-535) with the engine's
`src_callback_read` behaviour abstracted as `engine`: recreate the handle
if absent, clear the deferred-error slot, let the engine pull `engine.pulls`
times through `the_callback_func`, then (in the source's order) raise any
recorded deferred error, translate the engine status when zero frames were
generated, and otherwise shape the result: rank 1 iff `_channels == 1 &&
_buffer_ndim == 1`, rank 2 otherwise. -/
def read (strerror : Int → String) (s : CallbackState) (frames : ℕ)
    (engine : EngineRead) : Except CppError ReadOut × CallbackState :=
  let s2 := bridgePulls (read_pre s) engine.pulls
  let output_frames_gen := engine.gen
  let err_code : Int := if output_frames_gen = 0 then engine.err else 0
  if s2.callback_error_msg ≠ "" then
    (.error (.domainError s2.callback_error_msg), s2)
  else
    match (if output_frames_gen = 0 then error_handler strerror err_code else .ok ()) with
    | .error e => (.error e, s2)
    | .ok _ =>
      if s2.channels = 1 ∧ s2.buffer_ndim = 1 then
        (.ok ⟨1, output_frames_gen, 0⟩, s2)
      else
        (.ok ⟨2, output_frames_gen, s2.channels⟩, s2)

/-- `CallbackResampler::set_starting_ratio` (lines 537-540), with the
engine's `src_set_ratio` status abstracted as `engine_status`: the recorded
`_ratio` is assigned only after `error_handler` returns without raising. -/
def set_starting_ratio (strerror : Int → String) (s : CallbackState)
    (new_ratio : ℚ) (engine_status : Int) : Except CppError Unit × CallbackState :=
  match error_handler strerror engine_status with
  | .error e => (.error e, s)
  | .ok _ => (.ok (), { s with ratio := new_ratio })

/-- A sequence of `read` calls on the same session, one per engine
behaviour in the list, returning each call's result and the final state. -/
def reads (strerror : Int → String) (frames : ℕ) :
    CallbackState → List EngineRead → List (Except CppError ReadOut) × CallbackState
  | s, [] => ([], s)
  | s, e :: es =>
    let p := read strerror s frames e
    let q := reads strerror frames p.2 es
    (p.1 :: q.1, q.2)

end CallbackResampler

/-- A producer stream that has reached end-of-stream: every remaining
invocation returns the sentinel. -/
def producerExhausted (l : List (Option Chunk)) : Prop :=
  ∀ o ∈ l, o = none

lemma the_callback_func_preserves (s : CallbackState) :
    (the_callback_func s).1.hasState = s.hasState ∧
    (the_callback_func s).1.channels = s.channels ∧
    (s.callback_error_msg ≠ "" → (the_callback_func s).1.callback_error_msg ≠ "") ∧
    (s.buffer_ndim ≠ 0 → (the_callback_func s).1.buffer_ndim = s.buffer_ndim) := by
  rcases s with ⟨hs, bn, msg, r, ch, prod⟩
  rcases prod with _ | ⟨o, rest⟩
  · simp [the_callback_func, CallbackResampler.callback]
  · rcases o with _ | c
    · simp [the_callback_func, CallbackResampler.callback]
    · simp only [the_callback_func, CallbackResampler.callback]
      split_ifs <;> simp_all

lemma bridgePulls_hasState (n : ℕ) (s : CallbackState) :
    (bridgePulls s n).hasState = s.hasState := by
  induction n generalizing s with
  | zero => rfl
  | succ n ih =>
    rw [bridgePulls, ih]
    exact (the_callback_func_preserves s).1

lemma bridgePulls_channels (n : ℕ) (s : CallbackState) :
    (bridgePulls s n).channels = s.channels := by
  induction n generalizing s with
  | zero => rfl
  | succ n ih =>
    rw [bridgePulls, ih]
    exact (the_callback_func_preserves s).2.1

lemma bridgePulls_msg_ne (n : ℕ) (s : CallbackState)
    (h : s.callback_error_msg ≠ "") :
    (bridgePulls s n).callback_error_msg ≠ "" := by
  induction n generalizing s with
  | zero => exact h
  | succ n ih =>
    rw [bridgePulls]
    exact ih _ ((the_callback_func_preserves s).2.2.1 h)

lemma bridgePulls_buffer_ndim_ne (n : ℕ) (s : CallbackState)
    (h : s.buffer_ndim ≠ 0) :
    (bridgePulls s n).buffer_ndim = s.buffer_ndim := by
  induction n generalizing s with
  | zero => rfl
  | succ n ih =>
    rw [bridgePulls]
    have hp := (the_callback_func_preserves s).2.2.2 h
    rw [ih _ (by rw [hp]; exact h), hp]

lemma bridgePulls_add (m n : ℕ) (s : CallbackState) :
    bridgePulls s (m + n) = bridgePulls (bridgePulls s m) n := by
  induction m generalizing s with
  | zero => rw [Nat.zero_add]; rfl
  | succ m ih =>
    rw [Nat.succ_add, bridgePulls, bridgePulls, ih]

lemma tcf_bad_channels (s : CallbackState) (c : Chunk) (rest : List (Option Chunk))
    (hp : s.producer = some c :: rest) (hnd : c.ndim = 1 ∨ c.ndim = 2)
    (hbad : Chunk.num_channels c ≠ s.channels ∨ Chunk.num_channels c = 0) :
    (the_callback_func s).2 = 0 ∧
    (the_callback_func s).1.callback_error_msg
      = "Invalid number of channels in input data." := by
  rcases s with ⟨hs, bn, msg, r, ch, prod⟩
  simp only at hp
  subst hp
  simp only [the_callback_func, CallbackResampler.callback] at *
  have h0 : c.ndim ≠ 0 := by omega
  have h2 : ¬ c.ndim > 2 := by omega
  split_ifs <;> simp_all

lemma tcf_exhausted (s : CallbackState) (h : producerExhausted s.producer) :
    (the_callback_func s).2 = 0 ∧
    (the_callback_func s).1 = { s with producer := s.producer.tail } := by
  rcases s with ⟨hs, bn, msg, r, ch, prod⟩
  rcases prod with _ | ⟨o, rest⟩
  · simp [the_callback_func, CallbackResampler.callback]
  · have ho : o = none := h o (List.mem_cons_self o rest)
    subst ho
    simp [the_callback_func, CallbackResampler.callback]

lemma bridgePulls_exhausted (n : ℕ) (s : CallbackState)
    (h : producerExhausted s.producer) :
    (bridgePulls s n).callback_error_msg = s.callback_error_msg ∧
    (bridgePulls s n).buffer_ndim = s.buffer_ndim ∧
    producerExhausted (bridgePulls s n).producer := by
  induction n generalizing s with
  | zero => exact ⟨rfl, rfl, h⟩
  | succ n ih =>
    rw [bridgePulls, (tcf_exhausted s h).2]
    have h' : producerExhausted
        ({ s with producer := s.producer.tail } : CallbackState).producer := by
      intro o ho
      exact h o (List.mem_of_mem_tail ho)
    exact ih _ h'

lemma read_pre_spec (s : CallbackState) :
    CallbackResampler.read_pre s
      = { s with hasState := true, callback_error_msg := "" } := by
  rcases s with ⟨hs, bn, msg, r, ch, prod⟩
  rcases hs with _ | _ <;>
    simp [CallbackResampler.read_pre, CallbackResampler.create]

lemma error_handler_zero (strerror : Int → String) :
    error_handler strerror 0 = .ok () := by
  unfold error_handler
  norm_num

lemma read_error_of_deferred (strerror : Int → String) (s : CallbackState)
    (frames : ℕ) (engine : EngineRead)
    (h : (bridgePulls (CallbackResampler.read_pre s)
        engine.pulls).callback_error_msg ≠ "") :
    CallbackResampler.read strerror s frames engine
      = (.error (.domainError (bridgePulls (CallbackResampler.read_pre s)
          engine.pulls).callback_error_msg),
         bridgePulls (CallbackResampler.read_pre s) engine.pulls) := by
  simp only [CallbackResampler.read]
  rw [if_pos h]

lemma read_ok_of_clean (strerror : Int → String) (s : CallbackState)
    (frames : ℕ) (engine : EngineRead)
    (hgen : engine.gen = 0) (herr : engine.err = 0)
    (hmsg : (bridgePulls (CallbackResampler.read_pre s)
        engine.pulls).callback_error_msg = "") :
    ∃ out : ReadOut,
      CallbackResampler.read strerror s frames engine
        = (.ok out, bridgePulls (CallbackResampler.read_pre s) engine.pulls) ∧
      out.shape0 = 0 := by
  simp only [CallbackResampler.read, hgen, herr]
  rw [if_neg (by simp [hmsg])]
  simp only [if_true, error_handler_zero]
  by_cases hc : (bridgePulls (CallbackResampler.read_pre s) engine.pulls).channels = 1
      ∧ (bridgePulls (CallbackResampler.read_pre s) engine.pulls).buffer_ndim = 1
  · rw [if_pos hc]
    exact ⟨_, rfl, rfl⟩
  · rw [if_neg hc]
    exact ⟨_, rfl, rfl⟩

/-- C1 counterexample: the claim says engine status 23 yields the fatal
unknown-code error, but `error_handler` (`errnum > 0 && errnum < 24`)
treats 23 as a known code and constructs a `ResamplingException` whose
message comes from the engine's own code-to-text mapping. -/
theorem error_handler_code23_counterexample :
    error_handler (fun n => "engine message " ++ toString n) 23
      = .error (.resamplingException "engine message 23") ∧
    CppError.resamplingException "engine message 23"
      ≠ CppError.runtimeError "libsamplerate raised an unknown error code" := by
  exact ⟨rfl, by decide⟩

/-- C1 (amended): `error_handler` treats 0 as success; every code in the
closed range 1..23 (not 1..22) produces a `ResamplingException`
(`ConversionFailed`) whose message comes from the engine's code-to-text
mapping; every other non-zero code produces the fatal unknown-code
`runtime_error` (`FatalEngineContract`) whose value is independent of the
engine's message table (the table is never queried for such a code). -/
theorem error_handler_contract (strerror : Int → String) (errnum : Int) :
    (errnum = 0 → error_handler strerror errnum = .ok ()) ∧
    (1 ≤ errnum → errnum ≤ 23 →
      error_handler strerror errnum
        = .error (.resamplingException (strerror errnum))) ∧
    (errnum ≠ 0 → (errnum < 1 ∨ 23 < errnum) →
      error_handler strerror errnum
        = .error (.runtimeError "libsamplerate raised an unknown error code") ∧
      ∀ g : Int → String, error_handler g errnum = error_handler strerror errnum) := by
  refine ⟨?_, ?_, ?_⟩
  · intro h
    subst h
    exact error_handler_zero strerror
  · intro h1 h2
    have hin : errnum > 0 ∧ errnum < 24 := by omega
    unfold error_handler
    rw [if_pos hin]
  · intro h0 hout
    have hnot : ¬(errnum > 0 ∧ errnum < 24) := by omega
    constructor
    · unfold error_handler
      rw [if_neg hnot, if_pos h0]
    · intro g
      unfold error_handler
      rw [if_neg hnot, if_neg hnot]

/-- Witness for the amended C1 theorem at the concrete code 25. -/
theorem error_handler_contract_witness :
    error_handler (fun _ => "table") 25
      = .error (.runtimeError "libsamplerate raised an unknown error code") :=
  ((error_handler_contract (fun _ => "table") 25).2.2 (by decide) (by decide)).1

/-- C4: the planned output capacity used by `resample` and
`Resampler::process` is `ceil(frame_count * ratio) + FLUSH_MARGIN` with
`FLUSH_MARGIN = END_OF_INPUT_EXTRA_OUTPUT_FRAMES = 10000`; hence it is
at least `ceil(frame_count * ratio)`, and equals 10000 when the frame
count is zero. -/
theorem new_size_planned_capacity (num_frames : ℕ) (sr_ratio : ℚ)
    (h : 0 < sr_ratio) :
    new_size num_frames sr_ratio
      = (⌈(num_frames : ℚ) * sr_ratio⌉).toNat + END_OF_INPUT_EXTRA_OUTPUT_FRAMES ∧
    END_OF_INPUT_EXTRA_OUTPUT_FRAMES = 10000 ∧
    ⌈(num_frames : ℚ) * sr_ratio⌉ ≤ (new_size num_frames sr_ratio : ℤ) ∧
    (num_frames = 0 → new_size num_frames sr_ratio = 10000) := by
  have hnn : (0 : ℚ) ≤ (num_frames : ℚ) * sr_ratio :=
    mul_nonneg (Nat.cast_nonneg _) h.le
  have hceil : (0 : ℤ) ≤ ⌈(num_frames : ℚ) * sr_ratio⌉ := Int.ceil_nonneg hnn
  refine ⟨rfl, rfl, ?_, ?_⟩
  · have hval : (new_size num_frames sr_ratio : ℤ)
        = ⌈(num_frames : ℚ) * sr_ratio⌉ + 10000 := by
      unfold new_size END_OF_INPUT_EXTRA_OUTPUT_FRAMES
      push_cast
      rw [Int.toNat_of_nonneg hceil]
    rw [hval]
    linarith
  · intro h0
    subst h0
    simp [new_size, END_OF_INPUT_EXTRA_OUTPUT_FRAMES]

/-- Witness for the C4 theorem at frame count 0 and ratio 3/2. -/
theorem new_size_planned_capacity_witness :
    (0 : ℚ) < 3 / 2 ∧ new_size 0 (3 / 2) = 10000 :=
  ⟨by norm_num, (new_size_planned_capacity 0 (3 / 2) (by norm_num)).2.2.2 rfl⟩

/-- C5: a process request of rank greater than 2, or whose derived channel
count is 0 or differs from the session's fixed channel count, fails with a
`domain_error` (`InvalidShape`) and the engine is never invoked (call count
0, no output computed). -/
theorem process_invalid_shape_before_engine (strerror : Int → String)
    (sess_channels : ℕ) (input : NdIn) (sr_ratio : ℚ) (end_of_input : Bool)
    (engine : EngineProc)
    (h : input.ndim > 2 ∨ NdIn.channels input = 0
        ∨ NdIn.channels input ≠ sess_channels) :
    (∃ msg, (Resampler.process strerror sess_channels input sr_ratio
        end_of_input engine).1 = .error (.domainError msg)) ∧
    (Resampler.process strerror sess_channels input sr_ratio
        end_of_input engine).2 = 0 := by
  unfold Resampler.process
  rcases Nat.lt_or_ge 2 input.ndim with hgt | hle
  · rw [if_pos hgt]
    exact ⟨⟨_, rfl⟩, rfl⟩
  · have hnot : ¬ input.ndim > 2 := by omega
    rw [if_neg hnot]
    have hcond : NdIn.channels input ≠ sess_channels
        ∨ NdIn.channels input = 0 := by tauto
    rw [if_pos hcond]
    exact ⟨⟨_, rfl⟩, rfl⟩

/-- Witness for the C5 theorem: a rank-2 request with 0 channels against a
2-channel session fails before the engine is reached. -/
theorem process_invalid_shape_before_engine_witness :
    (∃ msg, (Resampler.process (fun _ => "") 2 ⟨2, 10, 0⟩ 1 false ⟨0, 0⟩).1
        = .error (.domainError msg)) ∧
    (Resampler.process (fun _ => "") 2 ⟨2, 10, 0⟩ 1 false ⟨0, 0⟩).2 = 0 :=
  process_invalid_shape_before_engine (fun _ => "") 2 ⟨2, 10, 0⟩ 1 false ⟨0, 0⟩
    (by decide)

lemma resample_ok_bound (strerror : Int → String) (input : NdIn)
    (sr_ratio : ℚ) (engine : EngineProc) (out : NdOut)
    (hok : resample strerror input sr_ratio engine = .ok out) :
    out.shape0 = engine.output_frames_gen ∧
    engine.output_frames_gen ≤ new_size input.shape0 sr_ratio := by
  unfold resample at hok
  by_cases h1 : input.ndim > 2
  · rw [if_pos h1] at hok
    exact absurd hok (by simp)
  rw [if_neg h1] at hok
  by_cases h2 : NdIn.channels input = 0
  · rw [if_pos h2] at hok
    exact absurd hok (by simp)
  rw [if_neg h2] at hok
  rcases he : error_handler strerror engine.err_code with e | u
  · rw [he] at hok
    exact absurd hok (by simp)
  rw [he] at hok
  dsimp only at hok
  by_cases h3 : engine.output_frames_gen > new_size input.shape0 sr_ratio
  · rw [if_pos h3] at hok
    exact absurd hok (by simp)
  rw [if_neg h3] at hok
  by_cases h4 : input.ndim = 2
  · rw [if_pos h4] at hok
    injection hok with h
    subst h
    exact ⟨rfl, by omega⟩
  · rw [if_neg h4] at hok
    injection hok with h
    subst h
    exact ⟨rfl, by omega⟩

lemma resample_overflow (strerror : Int → String) (input : NdIn)
    (sr_ratio : ℚ) (engine : EngineProc)
    (h1 : ¬ input.ndim > 2) (h2 : NdIn.channels input ≠ 0)
    (he : engine.err_code = 0)
    (h3 : engine.output_frames_gen > new_size input.shape0 sr_ratio) :
    resample strerror input sr_ratio engine
      = .error (.runtimeError "Generated more output samples than expected!") := by
  unfold resample
  rw [if_neg h1, if_neg h2, he, error_handler_zero]
  dsimp only
  rw [if_pos h3]

lemma process_ok_bound (strerror : Int → String) (sess_channels : ℕ)
    (input : NdIn) (sr_ratio : ℚ) (end_of_input : Bool) (engine : EngineProc)
    (out : NdOut)
    (hok : (Resampler.process strerror sess_channels input sr_ratio
        end_of_input engine).1 = .ok out) :
    out.shape0 = engine.output_frames_gen ∧
    engine.output_frames_gen ≤ new_size input.shape0 sr_ratio := by
  unfold Resampler.process at hok
  by_cases h1 : input.ndim > 2
  · rw [if_pos h1] at hok
    exact absurd hok (by simp)
  rw [if_neg h1] at hok
  by_cases h2 : NdIn.channels input ≠ sess_channels ∨ NdIn.channels input = 0
  · rw [if_pos h2] at hok
    exact absurd hok (by simp)
  rw [if_neg h2] at hok
  rcases he : error_handler strerror engine.err_code with e | u
  · rw [he] at hok
    exact absurd hok (by simp)
  rw [he] at hok
  dsimp only at hok
  by_cases h3 : engine.output_frames_gen > new_size input.shape0 sr_ratio
  · rw [if_pos h3] at hok
    exact absurd hok (by simp)
  rw [if_neg h3] at hok
  by_cases h4 : input.ndim = 2
  · rw [if_pos h4] at hok
    injection hok with h
    subst h
    exact ⟨rfl, by omega⟩
  · rw [if_neg h4] at hok
    injection hok with h
    subst h
    exact ⟨rfl, by omega⟩

lemma process_overflow (strerror : Int → String) (sess_channels : ℕ)
    (input : NdIn) (sr_ratio : ℚ) (end_of_input : Bool) (engine : EngineProc)
    (h1 : ¬ input.ndim > 2)
    (h2 : ¬(NdIn.channels input ≠ sess_channels ∨ NdIn.channels input = 0))
    (he : engine.err_code = 0)
    (h3 : engine.output_frames_gen > new_size input.shape0 sr_ratio) :
    (Resampler.process strerror sess_channels input sr_ratio
        end_of_input engine).1
      = .error (.runtimeError "Generated more output samples than expected!") := by
  unfold Resampler.process
  rw [if_neg h1, if_neg h2, he, error_handler_zero]
  dsimp only
  rw [if_pos h3]

/-- C6: for both the bulk conversion and the incremental process call, an
engine report of more generated frames than the planned capacity is never
accepted: no ok result exists, and when the engine status is 0 on a
shape-valid request the raised error is exactly the fatal
"Generated more output samples than expected!" `runtime_error`
(`FatalEngineContract`), a different error from any `ResamplingException`
(`ConversionFailed`); conversely every ok result satisfies
frames_generated ≤ planned capacity. -/
theorem frames_generated_capacity_contract :
    (∀ (strerror : Int → String) (input : NdIn) (sr_ratio : ℚ)
        (engine : EngineProc),
      (engine.output_frames_gen > new_size input.shape0 sr_ratio →
        ∀ out : NdOut, resample strerror input sr_ratio engine ≠ .ok out) ∧
      (¬ input.ndim > 2 → NdIn.channels input ≠ 0 → engine.err_code = 0 →
        engine.output_frames_gen > new_size input.shape0 sr_ratio →
        resample strerror input sr_ratio engine
          = .error (.runtimeError "Generated more output samples than expected!")) ∧
      (∀ out : NdOut, resample strerror input sr_ratio engine = .ok out →
        out.shape0 ≤ new_size input.shape0 sr_ratio)) ∧
    (∀ (strerror : Int → String) (sess_channels : ℕ) (input : NdIn)
        (sr_ratio : ℚ) (end_of_input : Bool) (engine : EngineProc),
      (engine.output_frames_gen > new_size input.shape0 sr_ratio →
        ∀ out : NdOut, (Resampler.process strerror sess_channels input
            sr_ratio end_of_input engine).1 ≠ .ok out) ∧
      (¬ input.ndim > 2 →
        ¬(NdIn.channels input ≠ sess_channels ∨ NdIn.channels input = 0) →
        engine.err_code = 0 →
        engine.output_frames_gen > new_size input.shape0 sr_ratio →
        (Resampler.process strerror sess_channels input sr_ratio
            end_of_input engine).1
          = .error (.runtimeError "Generated more output samples than expected!")) ∧
      (∀ out : NdOut, (Resampler.process strerror sess_channels input
          sr_ratio end_of_input engine).1 = .ok out →
        out.shape0 ≤ new_size input.shape0 sr_ratio)) ∧
    (∀ m1 m2 : String,
      CppError.runtimeError m1 ≠ CppError.resamplingException m2) := by
  refine ⟨?_, ?_, ?_⟩
  · intro strerror input sr_ratio engine
    refine ⟨?_, resample_overflow strerror input sr_ratio engine, ?_⟩
    · intro hover out hok
      have := (resample_ok_bound strerror input sr_ratio engine out hok).2
      omega
    · intro out hok
      obtain ⟨a, b⟩ := resample_ok_bound strerror input sr_ratio engine out hok
      omega
  · intro strerror sess_channels input sr_ratio end_of_input engine
    refine ⟨?_, process_overflow strerror sess_channels input sr_ratio
        end_of_input engine, ?_⟩
    · intro hover out hok
      have := (process_ok_bound strerror sess_channels input sr_ratio
          end_of_input engine out hok).2
      omega
    · intro out hok
      obtain ⟨a, b⟩ := process_ok_bound strerror sess_channels input sr_ratio
          end_of_input engine out hok
      omega
  · intro m1 m2 h
    exact CppError.noConfusion h

/-- Witness for the C6 theorem: with zero input frames and ratio 1 the
planned capacity is 10000, and an engine report of 10001 frames with
status 0 yields the fatal overflow error. -/
theorem frames_generated_capacity_contract_witness :
    resample (fun _ => "") ⟨1, 0, 0⟩ 1 ⟨0, 10001⟩
      = .error (.runtimeError "Generated more output samples than expected!") :=
  (frames_generated_capacity_contract.1 (fun _ => "") ⟨1, 0, 0⟩ 1
      ⟨0, 10001⟩).2.1 (by decide) (by decide) rfl
    (by norm_num [new_size, END_OF_INPUT_EXTRA_OUTPUT_FRAMES])

lemma tcf_sets_buffer_ndim (s : CallbackState) (c : Chunk)
    (rest : List (Option Chunk)) (hp : s.producer = some c :: rest)
    (h0 : s.buffer_ndim = 0) (hc : 0 < c.ndim) :
    (the_callback_func s).1.buffer_ndim = c.ndim := by
  rcases s with ⟨hs, bn, msg, r, ch, prod⟩
  simp only at hp h0
  subst hp
  subst h0
  simp only [the_callback_func, CallbackResampler.callback]
  split_ifs <;> simp_all

lemma read_ok_rank (strerror : Int → String) (s : CallbackState)
    (frames : ℕ) (engine : EngineRead) (out : ReadOut)
    (hok : (CallbackResampler.read strerror s frames engine).1 = .ok out) :
    (out.ndim = 1 ∨ out.ndim = 2) ∧
    (out.ndim = 1 ↔
      (bridgePulls (CallbackResampler.read_pre s) engine.pulls).channels = 1 ∧
      (bridgePulls (CallbackResampler.read_pre s) engine.pulls).buffer_ndim = 1) := by
  simp only [CallbackResampler.read] at hok
  by_cases hm : (bridgePulls (CallbackResampler.read_pre s)
      engine.pulls).callback_error_msg ≠ ""
  · rw [if_pos hm] at hok
    exact absurd hok (by simp)
  rw [if_neg hm] at hok
  rcases he : (if engine.gen = 0 then
      error_handler strerror (if engine.gen = 0 then engine.err else 0)
    else .ok ()) with e | u
  · rw [he] at hok
    exact absurd hok (by simp)
  rw [he] at hok
  dsimp only at hok
  by_cases hc : (bridgePulls (CallbackResampler.read_pre s)
        engine.pulls).channels = 1 ∧
      (bridgePulls (CallbackResampler.read_pre s) engine.pulls).buffer_ndim = 1
  · rw [if_pos hc] at hok
    injection hok with h
    subst h
    simp [hc]
  · rw [if_neg hc] at hok
    injection hok with h
    subst h
    simp [hc]

/-- C7: the recorded input rank `_buffer_ndim` is sticky — pulls never
change it once non-zero, and it is set at the first rank-positive producer
input observed; the result of a successful `read` is rank-1 exactly when
the session's channel count is 1 and the recorded first-observed rank is 1,
and rank-2 otherwise. -/
theorem read_output_rank_sticky :
    (∀ (s : CallbackState) (n : ℕ), s.buffer_ndim ≠ 0 →
      (bridgePulls s n).buffer_ndim = s.buffer_ndim) ∧
    (∀ (s : CallbackState) (c : Chunk) (rest : List (Option Chunk)),
      s.producer = some c :: rest → s.buffer_ndim = 0 → 0 < c.ndim →
      (the_callback_func s).1.buffer_ndim = c.ndim) ∧
    (∀ (strerror : Int → String) (s : CallbackState) (frames : ℕ)
        (engine : EngineRead) (out : ReadOut),
      (CallbackResampler.read strerror s frames engine).1 = .ok out →
      (out.ndim = 1 ∨ out.ndim = 2) ∧
      (out.ndim = 1 ↔ s.channels = 1 ∧
        (bridgePulls (CallbackResampler.read_pre s)
          engine.pulls).buffer_ndim = 1)) := by
  refine ⟨?_, ?_, ?_⟩
  · intro s n h
    exact bridgePulls_buffer_ndim_ne n s h
  · intro s c rest hp h0 hc
    exact tcf_sets_buffer_ndim s c rest hp h0 hc
  · intro strerror s frames engine out hok
    have hch : (bridgePulls (CallbackResampler.read_pre s)
        engine.pulls).channels = s.channels := by
      rw [bridgePulls_channels, read_pre_spec]
    have h := read_ok_rank strerror s frames engine out hok
    rw [hch] at h
    exact h

/-- Witness for the C7 theorem: a mono session whose first observed input
is rank-1 yields a rank-1 read result. -/
theorem read_output_rank_sticky_witness :
    ∃ out : ReadOut,
      (CallbackResampler.read (fun _ => "")
          ⟨true, 0, "", 1, 1, [some ⟨1, 4, 0⟩]⟩ 512 ⟨1, 2, 0⟩).1 = .ok out ∧
      (out.ndim = 1 ∨ out.ndim = 2) ∧
      (out.ndim = 1 ↔
        (⟨true, 0, "", 1, 1, [some ⟨1, 4, 0⟩]⟩ : CallbackState).channels = 1 ∧
        (bridgePulls (CallbackResampler.read_pre
            ⟨true, 0, "", 1, 1, [some ⟨1, 4, 0⟩]⟩)
          (⟨1, 2, 0⟩ : EngineRead).pulls).buffer_ndim = 1) :=
  ⟨⟨1, 2, 0⟩, rfl,
    read_output_rank_sticky.2.2 (fun _ => "")
      ⟨true, 0, "", 1, 1, [some ⟨1, 4, 0⟩]⟩ 512 ⟨1, 2, 0⟩ ⟨1, 2, 0⟩ rfl⟩

lemma read_state (strerror : Int → String) (s : CallbackState)
    (frames : ℕ) (engine : EngineRead) :
    (CallbackResampler.read strerror s frames engine).2
      = bridgePulls (CallbackResampler.read_pre s) engine.pulls := by
  simp only [CallbackResampler.read]
  split
  · rfl
  · split
    · rfl
    · split <;> rfl

/-- C8: `exit` unconditionally leaves the session Closed (handle absent),
releases a live handle exactly once and a second `exit` releases nothing;
a `read` on a Closed session behaves exactly as a `read` on the session
with the handle recreated first, and ends with the session Active. -/
theorem exit_closed_lazy_reopen :
    (∀ s : CallbackState,
      (CallbackResampler.exit s).1.hasState = false ∧
      (s.hasState = true → (CallbackResampler.exit s).2 = 1) ∧
      (CallbackResampler.exit (CallbackResampler.exit s).1).2 = 0) ∧
    (∀ (strerror : Int → String) (s : CallbackState) (frames : ℕ)
        (engine : EngineRead),
      s.hasState = false →
      CallbackResampler.read strerror s frames engine
        = CallbackResampler.read strerror (CallbackResampler.create s)
            frames engine ∧
      (CallbackResampler.read strerror s frames engine).2.hasState = true) := by
  constructor
  · intro s
    rcases s with ⟨hs, bn, msg, r, ch, prod⟩
    rcases hs with _ | _ <;>
      simp [CallbackResampler.exit, CallbackResampler.destroy]
  · intro strerror s frames engine h
    have hpre : CallbackResampler.read_pre s
        = CallbackResampler.read_pre (CallbackResampler.create s) := by
      rw [read_pre_spec, read_pre_spec]
      rcases s with ⟨hs, bn, msg, r, ch, prod⟩
      simp [CallbackResampler.create]
    constructor
    · unfold CallbackResampler.read
      rw [hpre]
    · rw [read_state, bridgePulls_hasState, read_pre_spec]

/-- Witness for the C8 theorem: a Closed mono session read once equals the
read on its recreated counterpart and ends Active. -/
theorem exit_closed_lazy_reopen_witness :
    CallbackResampler.read (fun _ => "") ⟨false, 0, "", 1, 1, []⟩ 8 ⟨0, 0, 0⟩
      = CallbackResampler.read (fun _ => "")
          (CallbackResampler.create ⟨false, 0, "", 1, 1, []⟩) 8 ⟨0, 0, 0⟩ ∧
    (CallbackResampler.read (fun _ => "") ⟨false, 0, "", 1, 1, []⟩ 8
        ⟨0, 0, 0⟩).2.hasState = true :=
  exit_closed_lazy_reopen.2 (fun _ => "") ⟨false, 0, "", 1, 1, []⟩ 8 ⟨0, 0, 0⟩ rfl

/-- C2: when, during a `read`, the producer supplies a chunk (rank 1 or 2)
whose derived channel count differs from the session's configured channel
count or is zero, the bridge records the deferred channel error and reports
zero frames available to the engine, and the `read` call fails with a
`domain_error` (`CallbackError`) carrying the recorded non-empty message
rather than silently dropping the data. -/
theorem read_channel_mismatch_callback_error (strerror : Int → String)
    (s : CallbackState) (frames : ℕ) (engine : EngineRead)
    (i : ℕ) (hi : i < engine.pulls) (c : Chunk) (rest : List (Option Chunk))
    (hpop : (bridgePulls (CallbackResampler.read_pre s) i).producer
        = some c :: rest)
    (hnd : c.ndim = 1 ∨ c.ndim = 2)
    (hbad : Chunk.num_channels c ≠ s.channels ∨ Chunk.num_channels c = 0) :
    ((the_callback_func (bridgePulls (CallbackResampler.read_pre s) i)).2 = 0 ∧
     (the_callback_func (bridgePulls (CallbackResampler.read_pre s)
         i)).1.callback_error_msg
       = "Invalid number of channels in input data.") ∧
    ∃ msg, msg ≠ "" ∧
      (CallbackResampler.read strerror s frames engine).1
        = .error (.domainError msg) := by
  have hch : (bridgePulls (CallbackResampler.read_pre s) i).channels
      = s.channels := by
    rw [bridgePulls_channels, read_pre_spec]
  have hbad' : Chunk.num_channels c
        ≠ (bridgePulls (CallbackResampler.read_pre s) i).channels
      ∨ Chunk.num_channels c = 0 := by
    rw [hch]
    exact hbad
  have hpart1 := tcf_bad_channels _ c rest hpop hnd hbad'
  refine ⟨hpart1, ?_⟩
  have hstep : bridgePulls (CallbackResampler.read_pre s) (i + 1)
      = (the_callback_func (bridgePulls (CallbackResampler.read_pre s) i)).1 := by
    rw [bridgePulls_add i 1]
    rfl
  have hdecomp : engine.pulls = (i + 1) + (engine.pulls - (i + 1)) := by omega
  have hfin : (bridgePulls (CallbackResampler.read_pre s)
      engine.pulls).callback_error_msg ≠ "" := by
    rw [hdecomp, bridgePulls_add, hstep]
    apply bridgePulls_msg_ne
    rw [hpart1.2]
    decide
  exact ⟨_, hfin, by rw [read_error_of_deferred strerror s frames engine hfin]⟩

/-- Witness for the C2 theorem: a 2-channel session whose producer returns
one rank-1 (hence 1-channel) chunk; the read fails with the recorded
channel error. -/
theorem read_channel_mismatch_callback_error_witness :
    ∃ msg, msg ≠ "" ∧
      (CallbackResampler.read (fun _ => "")
          ⟨true, 0, "", 1, 2, [some ⟨1, 4, 0⟩]⟩ 512 ⟨1, 0, 0⟩).1
        = .error (.domainError msg) :=
  (read_channel_mismatch_callback_error (fun _ => "")
      ⟨true, 0, "", 1, 2, [some ⟨1, 4, 0⟩]⟩ 512 ⟨1, 0, 0⟩ 0 (by decide)
      ⟨1, 4, 0⟩ [] (by decide) (by decide) (by decide)).2

/-- C9: the deferred-error check in `read` is unconditional: whenever the
bridge recorded a deferred callback error during the engine call, `read`
raises it even when the engine reported strictly positive generated frames,
so partial output produced before the faulty chunk is discarded, never
returned. -/
theorem read_deferred_error_unconditional (strerror : Int → String)
    (s : CallbackState) (frames : ℕ) (engine : EngineRead)
    (h : (bridgePulls (CallbackResampler.read_pre s)
        engine.pulls).callback_error_msg ≠ "")
    (hgen : 0 < engine.gen) :
    (CallbackResampler.read strerror s frames engine).1
      = .error (.domainError (bridgePulls (CallbackResampler.read_pre s)
          engine.pulls).callback_error_msg) ∧
    ∀ out : ReadOut,
      (CallbackResampler.read strerror s frames engine).1 ≠ .ok out := by
  have he := read_error_of_deferred strerror s frames engine h
  constructor
  · rw [he]
  · intro out hok
    rw [he] at hok
    simp at hok

/-- Witness for the C9 theorem: the engine reports 5 generated frames, yet
the recorded channel error is raised and no ok result is returned. -/
theorem read_deferred_error_unconditional_witness :
    (CallbackResampler.read (fun _ => "")
        ⟨true, 0, "", 1, 2, [some ⟨1, 4, 0⟩]⟩ 512 ⟨1, 5, 0⟩).1
      = .error (.domainError (bridgePulls (CallbackResampler.read_pre
          ⟨true, 0, "", 1, 2, [some ⟨1, 4, 0⟩]⟩) (1 : ℕ)).callback_error_msg) :=
  (read_deferred_error_unconditional (fun _ => "")
      ⟨true, 0, "", 1, 2, [some ⟨1, 4, 0⟩]⟩ 512 ⟨1, 5, 0⟩ (by decide) (by decide)).1

/-- C3: a `read` that comes back with zero generated frames, engine status
0 and no deferred callback error returns an empty ok result; and once the
producer is exhausted (every remaining invocation returns the sentinel),
every subsequent `read` under the engine's clean end-of-stream behaviour
returns 0 frames with no error (idempotent exhaustion). -/
theorem read_clean_eos_idempotent_exhaustion (strerror : Int → String) :
    (∀ (s : CallbackState) (frames : ℕ) (engine : EngineRead),
      engine.gen = 0 → engine.err = 0 →
      (bridgePulls (CallbackResampler.read_pre s)
          engine.pulls).callback_error_msg = "" →
      ∃ out : ReadOut,
        (CallbackResampler.read strerror s frames engine).1 = .ok out ∧
        out.shape0 = 0) ∧
    (∀ (s : CallbackState) (frames : ℕ) (engs : List EngineRead),
      producerExhausted s.producer →
      (∀ e ∈ engs, EngineRead.cleanEOS e) →
      ∀ r ∈ (CallbackResampler.reads strerror frames s engs).1,
        ∃ out : ReadOut, r = .ok out ∧ out.shape0 = 0) := by
  constructor
  · intro s frames engine hgen herr hmsg
    obtain ⟨out, heq, h0⟩ := read_ok_of_clean strerror s frames engine hgen herr hmsg
    exact ⟨out, by rw [heq], h0⟩
  · intro s frames engs
    induction engs generalizing s with
    | nil =>
      intro _ _ r hr
      simp [CallbackResampler.reads] at hr
    | cons e es ih =>
      intro hex hclean r hr
      have hex1 : producerExhausted
          (CallbackResampler.read_pre s).producer := by
        rw [read_pre_spec]
        exact hex
      have hmsg : (bridgePulls (CallbackResampler.read_pre s)
          e.pulls).callback_error_msg = "" := by
        rw [(bridgePulls_exhausted e.pulls _ hex1).1, read_pre_spec]
      have hc := hclean e (List.mem_cons_self e es)
      obtain ⟨out, heq, h0⟩ := read_ok_of_clean strerror s frames e hc.1 hc.2 hmsg
      have hex' : producerExhausted
          (CallbackResampler.read strerror s frames e).2.producer := by
        rw [heq]
        exact (bridgePulls_exhausted e.pulls _ hex1).2.2
      simp only [CallbackResampler.reads, List.mem_cons] at hr
      rcases hr with hr | hr
      · refine ⟨out, ?_, h0⟩
        rw [hr, heq]
      · exact ih _ hex' (fun x hx => hclean x (List.mem_cons_of_mem e hx)) r hr

/-- Witness for the C3 theorem: an exhausted mono session read twice under
clean end-of-stream engine behaviour returns only empty ok results. -/
theorem read_clean_eos_idempotent_exhaustion_witness :
    ∀ r ∈ (CallbackResampler.reads (fun _ => "") 512
        ⟨true, 0, "", 1, 1, []⟩ [⟨3, 0, 0⟩, ⟨0, 0, 0⟩]).1,
      ∃ out : ReadOut, r = .ok out ∧ out.shape0 = 0 :=
  (read_clean_eos_idempotent_exhaustion (fun _ => "")).2
    ⟨true, 0, "", 1, 1, []⟩ 512 [⟨3, 0, 0⟩, ⟨0, 0, 0⟩]
    (by simp [producerExhausted]) (by simp [EngineRead.cleanEOS])

/-- C10: `set_starting_ratio` leaves the session state (in particular the
recorded `_ratio`) unchanged when the engine rejects the new ratio with a
non-zero status, and records the new ratio exactly when the engine accepts
it with status 0. -/
theorem set_starting_ratio_state (strerror : Int → String)
    (s : CallbackState) (new_ratio : ℚ) (engine_status : Int) :
    (engine_status ≠ 0 →
      ∃ e, CallbackResampler.set_starting_ratio strerror s new_ratio engine_status
          = (.error e, s)) ∧
    (engine_status = 0 →
      CallbackResampler.set_starting_ratio strerror s new_ratio engine_status
        = (.ok (), { s with ratio := new_ratio })) := by
  constructor
  · intro h
    unfold CallbackResampler.set_starting_ratio error_handler
    by_cases h1 : engine_status > 0 ∧ engine_status < 24
    · rw [if_pos h1]
      exact ⟨_, rfl⟩
    · rw [if_neg h1, if_pos h]
      exact ⟨_, rfl⟩
  · intro h
    subst h
    unfold CallbackResampler.set_starting_ratio
    rw [error_handler_zero]

/-- Witness for the C10 theorem: a rejected ratio change (status 6,
`SRC_ERR_BAD_SRC_RATIO`) leaves the session untouched. -/
theorem set_starting_ratio_state_witness :
    ∃ e, CallbackResampler.set_starting_ratio (fun _ => "bad ratio")
        ⟨true, 0, "", 1, 2, []⟩ 2 6
      = (.error e, ⟨true, 0, "", 1, 2, []⟩) :=
  (set_starting_ratio_state (fun _ => "bad ratio")
      ⟨true, 0, "", 1, 2, []⟩ 2 6).1 (by decide)

end Samplerate
